import Mathlib

/-!
Shallow embedding of `src/event_formatter.rs` from the tracing-stackdriver
repository: the `EventFormatter`, its `format_event` routine, the
`TraceIdVisitor` trace-id field scanner, and the error model.

Rust strings are modelled as `String` (all claim inputs are ASCII, so byte
indices coincide with character indices), with byte slicing made explicit
on the underlying character list. Rust panics are modelled as `Option` or
an explicit `panicked` outcome; fallible returns as `Except`. Collaborators
that live in sibling modules of the crate (`crate::google`,
`crate::serializers`, `crate::visitor`) are not under `src/` and are
modelled from the spec, as marked on each definition.
-/

namespace Stackdriver

/-- Rust `s.split(':')` on the character list of a string: splits on every
colon, keeping empty segments (so `"a:"` yields the segments `a` and the
empty string). -/
def splitOnColon : List Char → List (List Char)
  | [] => [[]]
  | c :: cs =>
    let rest := splitOnColon cs
    if c = ':' then [] :: rest
    else
      match rest with
      | [] => [[c]]
      | r :: rs => (c :: r) :: rs

/-- Rust slice `&quoted[1..quoted.len() - 2]`, which panics (modelled as
`none`) unless `3 ≤ quoted.len()`: for lengths 0 and 1 the end index
underflows, and for length 2 the start index 1 exceeds the end index 0. -/
def sliceOneToLenSubTwo (quoted : List Char) : Option (List Char) :=
  if 3 ≤ quoted.length then some ((quoted.drop 1).take (quoted.length - 3))
  else none

/-- The unquoting expression inside `TraceIdVisitor::record_str`:
`value.split(':').skip(1).map(|quoted| &quoted[1..quoted.len() - 2]).find(|_| true).unwrap_or(value)`.
The Rust iterator is lazy, so only the segment between the first and the
second colon is ever sliced; with no colon in the value the raw value is
returned. `none` models a Rust panic inside the slice. -/
def unpackTraceId (value : String) : Option String :=
  match (splitOnColon value.data).drop 1 with
  | [] => some value
  | quoted :: _ =>
    match sliceOneToLenSubTwo quoted with
    | some s => some (String.mk s)
    | none => none

/-- State of `struct TraceIdVisitor { trace_id: Option<String> }`. -/
structure TraceIdVisitor where
  trace_id : Option String
deriving DecidableEq

/-- Value of `TraceIdVisitor::new()`. -/
def TraceIdVisitor.new : TraceIdVisitor := ⟨none⟩

/-- Method `TraceIdVisitor::record_str`: on the field named `trace_id`,
unquote the value and store it; `none` models the panic that the slice in
`unpackTraceId` can raise. -/
def TraceIdVisitor.record_str (v : TraceIdVisitor) (fieldName : String)
    (value : String) : Option TraceIdVisitor :=
  if fieldName = "trace_id" then
    match unpackTraceId value with
    | some s => some ⟨some s⟩
    | none => none
  else some v

/-- Method `TraceIdVisitor::record_debug`, whose body is empty: the visitor
state is returned unchanged. -/
def TraceIdVisitor.record_debug (v : TraceIdVisitor) : TraceIdVisitor := v

/-- Dynamically typed recorded field values. The spec (§9) fixes the closed
sum {Number, Bool, String, Display-text}; `debugRepr` is the rendered text
of a value that is only available through its debug representation. -/
inductive FieldValue
  | str (s : String)
  | num (n : Int)
  | bool (b : Bool)
  | debugRepr (s : String)
deriving DecidableEq

/-- JSON values, as produced by the streaming `serde_json` serializer. -/
inductive Json
  | str (s : String)
  | num (n : Int)
  | bool (b : Bool)
  | obj (entries : List (String × Json))
  | null

/-- Type-preserving serialization of a recorded field value (spec §4.4:
numbers as numbers, booleans as booleans, strings as strings, anything
else rendered as its debug text). -/
def FieldValue.toJson : FieldValue → Json
  | .str s => .str s
  | .num n => .num n
  | .bool b => .bool b
  | .debugRepr s => .str s

/-- The five internal levels of `tracing_core` (`Level`). -/
inductive Level
  | trace
  | debug
  | info
  | warn
  | error
deriving DecidableEq

/-- The provider severities of `crate::google::LogSeverity`. -/
inductive LogSeverity
  | default
  | debug
  | info
  | warning
  | error
  | critical
deriving DecidableEq

/-- Modelled from the spec: the conversion `LogSeverity::from(&Level)` lives
in `crate::google`, which is not under `src/`; the spec (§6) fixes the
table TRACE/DEBUG→DEBUG, INFO→INFO, WARN→WARNING, ERROR→ERROR. -/
def LogSeverity.fromLevel : Level → LogSeverity
  | .trace => .debug
  | .debug => .debug
  | .info => .info
  | .warn => .warning
  | .error => .error

/-- Second definition written from the spec's words alone (§6 and §8), for
comparison with `LogSeverity.fromLevel`: the fixed severity mapping table. -/
def specSeverityTable : Level → LogSeverity
  | .trace => .debug
  | .debug => .debug
  | .info => .info
  | .warn => .warning
  | .error => .error

/-- Rendering of a provider severity as the emitted string. -/
def LogSeverity.asString : LogSeverity → String
  | .default => "DEFAULT"
  | .debug => "DEBUG"
  | .info => "INFO"
  | .warning => "WARNING"
  | .error => "ERROR"
  | .critical => "CRITICAL"

/-- Event metadata (`tracing_core::Metadata`): level, target, and the
optional source file and line used for `sourceLocation`. -/
structure Metadata where
  level : Level
  target : String
  file : Option String
  line : Option Nat

/-- One span as seen through the registry: its name, the names of its field
set (`span.fields()`), its recorded key/values (serialized by
`SerializableSpan`), and the formatted text of the span's
`FormattedFields<JsonFields>` extension, when that extension is present.
The extension is a formatted JSON String (for a span recording
`trace_id = 123` it reads `{"trace_id":123}`), and recording it into
a visitor goes through the `Value` impl for strings, which always calls
`record_str` — whatever the original type of the `trace_id` field. -/
structure SpanData where
  name : String
  fieldNames : List String
  fields : List (String × FieldValue)
  jsonFields : Option String

/-- The span-lookup capability of `FmtContext`: lookup of a span by id
(`context.span(id)`), the ambient current span (`context.lookup_current()`),
and the span hierarchy walked by `context.visit_spans`. -/
structure Context where
  findSpan : Nat → Option SpanData
  current : Option SpanData
  hierarchy : List SpanData

/-- One event: its declared parent span id (`event.parent()`), its
metadata, and its ordered recorded fields (visited by `event.record`). -/
structure EventData where
  parent : Option Nat
  metadata : Metadata
  fields : List (String × FieldValue)

/-- Configuration state of `struct EventFormatter`, which holds exactly one
field: `include_source_location: bool`. -/
structure EventFormatter where
  include_source_location : Bool

/-- The four variants of `enum Error` in `event_formatter.rs`:
`Formatting(fmt::Error)`, `Serialization(serde_json::Error)`,
`Io(std::io::Error)` and `Time(time::error::Format)`; payloads of the
foreign error types are modelled as their messages. -/
inductive Error
  | formatting
  | serialization (msg : String)
  | ioFailure (msg : String)
  | time (msg : String)
deriving DecidableEq

/-- The unit struct `std::fmt::Error`, the single opaque error value a
`FormatEvent` implementation can return. -/
inductive FmtError
  | mk
deriving DecidableEq

/-- The impl `From<Error> for fmt::Error`, whose body ignores the variant
and returns `Self`. -/
def Error.intoFmtError : Error → FmtError := fun _ => FmtError.mk

/-- Outcome of one call of the inner `format_event`: a normal return, an
`Err(Error)` return, or a Rust panic. -/
inductive Outcome
  | ok
  | err (e : Error)
  | panicked
deriving DecidableEq

/-- Recording loop body of `context.visit_spans` for a single span: for
every field of the span named `trace_id`, the span's
`FormattedFields<JsonFields>` extension (when present) is recorded into the
visitor via `json_fields.record(&field, &mut trace_id)`. The recorded
object is the extension's formatted String, whose `Value::record` impl
always calls `record_str` with the field's name and that text — the
`record_debug` path is unreachable at this call site. `none` models a
panic inside `record_str`. -/
def recordSpanFields (s : SpanData) : List String → TraceIdVisitor → Option TraceIdVisitor
  | [], v => some v
  | n :: ns, v =>
    if n = "trace_id" then
      match s.jsonFields with
      | some js =>
        match v.record_str n js with
        | some v' => recordSpanFields s ns v'
        | none => none
      | none => recordSpanFields s ns v
    else recordSpanFields s ns v

/-- The whole `context.visit_spans` loop of `format_event`, threading the
`TraceIdVisitor` through the span hierarchy. -/
def scanTraceId : List SpanData → TraceIdVisitor → Option TraceIdVisitor
  | [], v => some v
  | s :: rest, v =>
    match recordSpanFields s s.fieldNames v with
    | some v' => scanTraceId rest v'
    | none => none

/-- Span resolution of `format_event`:
`event.parent().and_then(|id| context.span(id)).or_else(|| context.lookup_current())`. -/
def resolveSpan (context : Context) (event : EventData) : Option SpanData :=
  match event.parent.bind context.findSpan with
  | some s => some s
  | none => context.current

/-- Modelled from the spec: `SourceLocation` lives in `crate::serializers`,
not under `src/`; the spec (§3) gives the shape {file: string, line:
optional unsigned integer}. -/
def serializeSourceLocation (file : String) (line : Option Nat) : Json :=
  Json.obj [("file", Json.str file),
            ("line", match line with | some n => Json.num n | none => Json.null)]

/-- Modelled from the spec: `SerializableSpan` lives in `crate::serializers`,
not under `src/`; the spec (§4.2) gives a structured value
{"name": span_name, fields...} with type-preserving field serialization. -/
def serializeSpan (s : SpanData) : Json :=
  Json.obj (("name", Json.str s.name) :: s.fields.map (fun p => (p.1, p.2.toJson)))

/-- Modelled from the spec: `Visitor` lives in `crate::visitor`, not under
`src/`. Per §4.4 and §8 it writes the "severity" entry at its emission
point and then every event field into the still-open map, type-preserving,
verbatim names, with no deduplication against already-written keys; the
primary human-readable field is written under the canonical "message" key,
which is also its conventional recorded name, so names pass through
unchanged. -/
def visitorEntries (severity : LogSeverity) (fields : List (String × FieldValue)) :
    List (String × Json) :=
  ("severity", Json.str severity.asString) :: fields.map (fun p => (p.1, p.2.toJson))

/-- The entries written to the streaming map before the trace-id scan:
`time`, `target`, the conditional `logging.googleapis.com/sourceLocation`
entry, and the conditional `span` entry, in source order. -/
def headEntries (self : EventFormatter) (context : Context) (event : EventData)
    (time : String) : List (String × Json) :=
  [("time", Json.str time), ("target", Json.str event.metadata.target)]
  ++ (if self.include_source_location then
        match event.metadata.file with
        | some file =>
          [("logging.googleapis.com/sourceLocation",
            serializeSourceLocation file event.metadata.line)]
        | none => []
      else [])
  ++ (match resolveSpan context event with
      | some s => [("span", serializeSpan s)]
      | none => [])

/-- The conditional raw `traceId` entry written after the scan
(`if let Some(trace_id) = trace_id.trace_id { map.serialize_entry("traceId", &trace_id)?; }`). -/
def traceEntries (visitor : TraceIdVisitor) : List (String × Json) :=
  match visitor.trace_id with
  | some tid => [("traceId", Json.str tid)]
  | none => []

/-- The inner `EventFormatter::format_event`, modelled as the sequence of
map entries written to the streaming serializer together with the call's
outcome. `now` is the result of `OffsetDateTime::now_utc().format(&Rfc3339)`,
the ambient clock-and-format step, supplied as an input; its failure aborts
before the map is opened. A panic inside the trace-id scan leaves the
entries already written. -/
def EventFormatter.format_event (self : EventFormatter) (context : Context)
    (event : EventData) (now : Except String String) :
    List (String × Json) × Outcome :=
  match now with
  | .error e => ([], .err (Error.time e))
  | .ok time =>
    match scanTraceId context.hierarchy TraceIdVisitor.new with
    | none => (headEntries self context event time, .panicked)
    | some visitor =>
      (headEntries self context event time
        ++ traceEntries visitor
        ++ visitorEntries (LogSeverity.fromLevel event.metadata.level) event.fields,
       .ok)

/-- The outer `FormatEvent::format_event` impl: the inner result is mapped
through `From<Error> for fmt::Error` by the `?` operator; a panic
propagates (modelled as `none`); the trailing `writeln!` on the external
writer is assumed to succeed. -/
def formatEventOuter : Outcome → Option (Except FmtError Unit)
  | .ok => some (Except.ok ())
  | .err e => some (Except.error e.intoFmtError)
  | .panicked => none

/-- The fixed leading keys of one output record, in emission order; used to
state the field-order invariant. -/
def fixedRecordKeys (f : EventFormatter) (context : Context) (event : EventData)
    (visitor : TraceIdVisitor) : List String :=
  ["time", "target"]
  ++ (if f.include_source_location = true ∧ event.metadata.file.isSome = true
      then ["logging.googleapis.com/sourceLocation"] else [])
  ++ (if (resolveSpan context event).isSome = true then ["span"] else [])
  ++ (if visitor.trace_id.isSome = true then ["traceId"] else [])

end Stackdriver

namespace Stackdriver

theorem format_event_ok_entries (f : EventFormatter) (context : Context)
    (event : EventData) (time : String) (entries : List (String × Json))
    (h : f.format_event context event (Except.ok time) = (entries, Outcome.ok)) :
    ∃ visitor, scanTraceId context.hierarchy TraceIdVisitor.new = some visitor ∧
      entries = headEntries f context event time ++ traceEntries visitor
        ++ visitorEntries (LogSeverity.fromLevel event.metadata.level) event.fields := by
  unfold EventFormatter.format_event at h
  cases hscan : scanTraceId context.hierarchy TraceIdVisitor.new with
  | none => rw [hscan] at h; simp at h
  | some visitor =>
    rw [hscan] at h
    simp at h
    exact ⟨visitor, rfl, by rw [List.append_assoc]; exact h.symm⟩

theorem headEntries_map_fst (f : EventFormatter) (context : Context)
    (event : EventData) (time : String) :
    (headEntries f context event time).map Prod.fst =
      ["time", "target"]
      ++ (if f.include_source_location = true ∧ event.metadata.file.isSome = true
          then ["logging.googleapis.com/sourceLocation"] else [])
      ++ (if (resolveSpan context event).isSome = true then ["span"] else []) := by
  unfold headEntries
  cases hb : f.include_source_location <;>
    cases hf : event.metadata.file <;>
      cases hs : resolveSpan context event <;>
        simp [hb, hf, hs]

theorem traceEntries_map_fst (visitor : TraceIdVisitor) :
    (traceEntries visitor).map Prod.fst =
      (if visitor.trace_id.isSome = true then ["traceId"] else []) := by
  unfold traceEntries
  cases ht : visitor.trace_id <;> simp [ht]

theorem visitorEntries_map_fst (severity : LogSeverity)
    (fields : List (String × FieldValue)) :
    (visitorEntries severity fields).map Prod.fst =
      "severity" :: fields.map Prod.fst := by
  simp [visitorEntries]

theorem format_event_ok_keys (f : EventFormatter) (context : Context)
    (event : EventData) (time : String) (entries : List (String × Json))
    (visitor : TraceIdVisitor)
    (h : f.format_event context event (Except.ok time) = (entries, Outcome.ok))
    (hscan : scanTraceId context.hierarchy TraceIdVisitor.new = some visitor) :
    entries.map Prod.fst =
      fixedRecordKeys f context event visitor
        ++ "severity" :: event.fields.map Prod.fst := by
  obtain ⟨visitor', hscan', hentries⟩ := format_event_ok_entries f context event time entries h
  rw [hscan] at hscan'
  cases hscan'
  rw [hentries]
  simp only [List.map_append, headEntries_map_fst, traceEntries_map_fst,
    visitorEntries_map_fst, fixedRecordKeys, List.append_assoc]

end Stackdriver

namespace Stackdriver

theorem drop_one_take_eq_dropLast_dropLast (quoted : List Char)
    (h : 3 ≤ quoted.length) :
    (quoted.drop 1).take (quoted.length - 3) = (quoted.drop 1).dropLast.dropLast := by
  rw [List.dropLast_eq_take, List.dropLast_eq_take, List.take_take]
  simp only [List.length_take, List.length_drop]
  congr 1
  omega

/-- C1 counterexample: on the concrete value `field:"abc123"` recorded
under the field name `trace_id`, `record_str` stores the trace id `abc12`,
not `abc123`: the slice removes one leading character and two trailing
characters from the quoted segment, not one quote on each side. -/
theorem c1_unquoting_counterexample :
    TraceIdVisitor.record_str TraceIdVisitor.new "trace_id" "field:\"abc123\""
        = some ⟨some "abc12"⟩
    ∧ TraceIdVisitor.mk (some "abc12") ≠ TraceIdVisitor.mk (some "abc123") := by
  decide

/-- C1 (amended): for every string value recorded under the field name
`trace_id`, `record_str` splits the value on colons; when the value
contains no colon it stores the raw value unmodified; otherwise it takes
the segment between the first and the second colon and, when that segment
is at least three characters long, stores that segment with its first
character and its last two characters removed (on a shorter segment the
slice panics, see C3). In particular `abc123` resolves to `abc123`
unchanged and `field:"abc123"` resolves to `abc12`. -/
theorem c1_unquoting_amended (v : TraceIdVisitor) (value : String)
    (quoted : List Char) (rest : List (List Char)) :
    ((splitOnColon value.data).drop 1 = [] →
      v.record_str "trace_id" value = some ⟨some value⟩)
    ∧ ((splitOnColon value.data).drop 1 = quoted :: rest → 3 ≤ quoted.length →
      v.record_str "trace_id" value
        = some ⟨some (String.mk ((quoted.drop 1).dropLast.dropLast))⟩) := by
  constructor
  · intro h
    simp [TraceIdVisitor.record_str, unpackTraceId, h]
  · intro h hlen
    rw [← drop_one_take_eq_dropLast_dropLast quoted hlen]
    simp [TraceIdVisitor.record_str, unpackTraceId, h, sliceOneToLenSubTwo, hlen]

/-- C1 witness: the two concrete inputs named by the claim, resolved by the
amended theorem. -/
theorem c1_unquoting_amended_witness :
    TraceIdVisitor.record_str TraceIdVisitor.new "trace_id" "abc123"
        = some ⟨some "abc123"⟩ :=
  (c1_unquoting_amended TraceIdVisitor.new "abc123" [] []).1 (by decide)

/-- C3: `TraceIdVisitor::record_str` panics (modelled as `none`) on the
values `a:`, `a:x` and `a:xy`, where the segment between the first and the
second colon is shorter than three bytes and the slice
`&quoted[1..quoted.len() - 2]` indexes out of range or underflows. -/
theorem c3_short_segment_panics :
    TraceIdVisitor.record_str TraceIdVisitor.new "trace_id" "a:" = none
    ∧ TraceIdVisitor.record_str TraceIdVisitor.new "trace_id" "a:x" = none
    ∧ TraceIdVisitor.record_str TraceIdVisitor.new "trace_id" "a:xy" = none := by
  decide

/-- C8: the span serialized under the `span` key is the event's declared
parent span when one is declared and found in the registry; otherwise the
ambient current span; the resolution is
`event.parent().and_then(|id| context.span(id)).or_else(|| context.lookup_current())`,
so when neither exists no span is resolved. -/
theorem c8_span_resolution (context : Context) (event : EventData) :
    (∀ id s, event.parent = some id → context.findSpan id = some s →
      resolveSpan context event = some s)
    ∧ (event.parent = none → resolveSpan context event = context.current)
    ∧ (∀ id, event.parent = some id → context.findSpan id = none →
      resolveSpan context event = context.current) := by
  refine ⟨?_, ?_, ?_⟩
  · intro id s hp hf
    simp [resolveSpan, hp, hf]
  · intro hp
    simp [resolveSpan, hp]
  · intro id hp hf
    simp [resolveSpan, hp, hf]

end Stackdriver

namespace Stackdriver

theorem mem_ite_singleton {c : Prop} [Decidable c] (k a : String) :
    (k ∈ (if c then [a] else [])) ↔ (k = a ∧ c) := by
  split <;> simp_all

theorem mem_fixedRecordKeys (f : EventFormatter) (context : Context)
    (event : EventData) (visitor : TraceIdVisitor) (k : String) :
    k ∈ fixedRecordKeys f context event visitor ↔
      (k = "time" ∨ k = "target"
        ∨ (k = "logging.googleapis.com/sourceLocation"
            ∧ f.include_source_location = true ∧ event.metadata.file.isSome = true)
        ∨ (k = "span" ∧ (resolveSpan context event).isSome = true)
        ∨ (k = "traceId" ∧ visitor.trace_id.isSome = true)) := by
  unfold fixedRecordKeys
  simp only [List.mem_append, mem_ite_singleton, List.mem_cons, List.not_mem_nil,
    or_false]
  tauto

theorem format_event_mem_key (f : EventFormatter) (context : Context)
    (event : EventData) (time : String) (entries : List (String × Json))
    (visitor : TraceIdVisitor)
    (h : f.format_event context event (Except.ok time) = (entries, Outcome.ok))
    (hscan : scanTraceId context.hierarchy TraceIdVisitor.new = some visitor)
    (k : String) :
    k ∈ entries.map Prod.fst ↔
      (k ∈ fixedRecordKeys f context event visitor
        ∨ k = "severity" ∨ k ∈ event.fields.map Prod.fst) := by
  rw [format_event_ok_keys f context event time entries visitor h hscan]
  simp [List.mem_append]

end Stackdriver

namespace Stackdriver

/-- Fixture: a context with no current span and an empty span hierarchy. -/
def noSpanContext : Context := ⟨fun _ => none, none, []⟩

/-- Fixture: metadata at level ERROR for target `svc`, no source file. -/
def svcMetadata : Metadata := ⟨Level.error, "svc", none, none⟩

/-- Fixture: an event with no declared parent and no recorded fields. -/
def svcEvent : EventData := ⟨none, svcMetadata, []⟩

/-- Fixture: metadata carrying a source file. -/
def fileMetadata : Metadata := ⟨Level.info, "svc", some "main.rs", some 3⟩

/-- Fixture: an event whose metadata carries a source file. -/
def fileEvent : EventData := ⟨none, fileMetadata, []⟩

/-- Fixture: a span named `request` that recorded `trace_id = "t1"`; its
formatted-fields extension therefore reads `{"trace_id":"t1"}`. -/
def traceSpan : SpanData :=
  ⟨"request", ["trace_id"], [("user", FieldValue.num 42)],
   some "\x7b\"trace_id\":\"t1\"\x7d"⟩

/-- Fixture: a context whose current span and one-element hierarchy is
`traceSpan`. -/
def traceContext : Context := ⟨fun _ => none, some traceSpan, [traceSpan]⟩

/-- Fixture: a span that recorded `trace_id = 123` as a number, not a
string; its formatted-fields extension therefore reads
`{"trace_id":123}`. -/
def numSpan : SpanData :=
  ⟨"request", ["trace_id"], [], some "\x7b\"trace_id\":123\x7d"⟩

/-- Fixture: a context whose only span records `trace_id` in numeric form. -/
def numContext : Context := ⟨fun _ => none, some numSpan, [numSpan]⟩

/-- Fixture: a span used as a declared parent. -/
def parentSpan : SpanData := ⟨"parent", [], [], none⟩

/-- Fixture: a context that resolves span id 7 to `parentSpan` while a
different span is current. -/
def parentContext : Context :=
  ⟨fun id => if id = 7 then some parentSpan else none, some traceSpan, []⟩

/-- Fixture: an event declaring span 7 as its parent. -/
def parentEvent : EventData := ⟨some 7, svcMetadata, []⟩

/-- Fixture: an event that records a user field named `time`, colliding
with the fixed `time` key. -/
def collidingEvent : EventData := ⟨none, svcMetadata, [("time", FieldValue.num 1)]⟩

/-- C8 witness: a declared parent span that is found in the registry wins
over the ambient current span. -/
theorem c8_span_resolution_witness :
    resolveSpan parentContext parentEvent = some parentSpan :=
  (c8_span_resolution parentContext parentEvent).1 7 parentSpan rfl rfl

/-- C9: all three failure kinds of the formatter collapse into the single
opaque `fmt::Error` value returned to the caller, and a timestamp
formatting failure aborts the event with `Error::Time` before any key is
written to the output map. -/
theorem c9_error_collapse :
    (∀ e : Error, e.intoFmtError = FmtError.mk)
    ∧ (∀ e : Error, formatEventOuter (Outcome.err e)
        = some (Except.error FmtError.mk))
    ∧ (∀ (f : EventFormatter) (context : Context) (event : EventData)
        (emsg : String),
        f.format_event context event (Except.error emsg)
          = ([], Outcome.err (Error.time emsg))) :=
  ⟨fun _ => rfl, fun _ => rfl, fun _ _ _ _ => rfl⟩

/-- C5: the level-to-severity mapping is total (a Lean function over the
five-constructor `Level` type), agrees with the fixed spec table
everywhere, never yields CRITICAL, and every successfully formatted record
carries the severity string of the table entry for the event's level. -/
theorem c5_severity_mapping (f : EventFormatter) (context : Context)
    (event : EventData) (time : String) (entries : List (String × Json))
    (h : f.format_event context event (Except.ok time) = (entries, Outcome.ok)) :
    ("severity", Json.str ((specSeverityTable event.metadata.level).asString))
        ∈ entries
    ∧ (∀ l, LogSeverity.fromLevel l = specSeverityTable l)
    ∧ (∀ l, LogSeverity.fromLevel l ≠ LogSeverity.critical) := by
  have htab : ∀ l, LogSeverity.fromLevel l = specSeverityTable l := by
    intro l; cases l <;> rfl
  refine ⟨?_, htab, ?_⟩
  · obtain ⟨visitor, hscan, hentries⟩ :=
      format_event_ok_entries f context event time entries h
    rw [hentries, ← htab]
    simp [visitorEntries, List.mem_append]
  · intro l; cases l <;> simp [LogSeverity.fromLevel]

/-- C5 witness: a concrete ERROR-level event whose record carries the
severity entry of the table. -/
theorem c5_severity_mapping_witness :
    ("severity", Json.str ((specSeverityTable svcEvent.metadata.level).asString))
        ∈ (EventFormatter.format_event ⟨false⟩ noSpanContext svcEvent
            (Except.ok "T")).1 :=
  (c5_severity_mapping ⟨false⟩ noSpanContext svcEvent "T" _ rfl).1

end Stackdriver

namespace Stackdriver

/-- C6: for every successfully formatted event whose user fields do not
themselves use the reserved source-location name, the
`logging.googleapis.com/sourceLocation` key is present in the output if and
only if source-location inclusion is enabled in the formatter's
configuration and the event's metadata carries a file. -/
theorem c6_source_location (f : EventFormatter) (context : Context)
    (event : EventData) (time : String) (entries : List (String × Json))
    (h : f.format_event context event (Except.ok time) = (entries, Outcome.ok))
    (huser : ∀ p ∈ event.fields, p.1 ≠ "logging.googleapis.com/sourceLocation") :
    "logging.googleapis.com/sourceLocation" ∈ entries.map Prod.fst
      ↔ (f.include_source_location = true ∧ event.metadata.file.isSome = true) := by
  obtain ⟨visitor, hscan, -⟩ := format_event_ok_entries f context event time entries h
  rw [format_event_mem_key f context event time entries visitor h hscan,
    mem_fixedRecordKeys]
  constructor
  · rintro ((h' | h' | ⟨-, hc⟩ | ⟨h', -⟩ | ⟨h', -⟩) | h' | hu)
    · exact absurd h' (by decide)
    · exact absurd h' (by decide)
    · exact hc
    · exact absurd h' (by decide)
    · exact absurd h' (by decide)
    · exact absurd h' (by decide)
    · obtain ⟨p, hp, hpk⟩ := List.mem_map.mp hu
      exact absurd hpk (huser p hp)
  · intro hc
    exact Or.inl (Or.inr (Or.inr (Or.inl ⟨rfl, hc⟩)))

/-- C6 witness: with source location enabled and a file in the metadata,
the source-location key is present. -/
theorem c6_source_location_witness :
    "logging.googleapis.com/sourceLocation"
        ∈ ((EventFormatter.format_event ⟨true⟩ noSpanContext fileEvent
            (Except.ok "T")).1.map Prod.fst)
      ↔ (EventFormatter.include_source_location ⟨true⟩ = true
          ∧ fileEvent.metadata.file.isSome = true) :=
  c6_source_location ⟨true⟩ noSpanContext fileEvent "T" _ rfl (by decide)

/-- C7: for every event formatted with no declared parent span, no ambient
current span, and an empty span hierarchy, and whose user fields do not
themselves use the reserved names, the output contains neither a `span` key
nor a trace-id key nor a span-id key. -/
theorem c7_no_span_no_trace (f : EventFormatter) (context : Context)
    (event : EventData) (time : String) (entries : List (String × Json))
    (h : f.format_event context event (Except.ok time) = (entries, Outcome.ok))
    (hparent : event.parent = none) (hcur : context.current = none)
    (hhier : context.hierarchy = [])
    (huser : ∀ p ∈ event.fields,
      p.1 ≠ "span" ∧ p.1 ≠ "traceId" ∧ p.1 ≠ "logging.googleapis.com/spanId") :
    "span" ∉ entries.map Prod.fst
    ∧ "traceId" ∉ entries.map Prod.fst
    ∧ "logging.googleapis.com/spanId" ∉ entries.map Prod.fst := by
  have hspan : resolveSpan context event = none := by
    simp [resolveSpan, hparent, hcur]
  have hscan : scanTraceId context.hierarchy TraceIdVisitor.new
      = some TraceIdVisitor.new := by
    rw [hhier]; rfl
  refine ⟨?_, ?_, ?_⟩ <;>
    rw [format_event_mem_key f context event time entries TraceIdVisitor.new h hscan,
      mem_fixedRecordKeys]
  · rintro ((h' | h' | ⟨h', -⟩ | ⟨-, hc⟩ | ⟨h', -⟩) | h' | hu)
    · exact absurd h' (by decide)
    · exact absurd h' (by decide)
    · exact absurd h' (by decide)
    · rw [hspan] at hc; cases hc
    · exact absurd h' (by decide)
    · exact absurd h' (by decide)
    · obtain ⟨p, hp, hpk⟩ := List.mem_map.mp hu
      exact absurd hpk (huser p hp).1
  · rintro ((h' | h' | ⟨h', -⟩ | ⟨h', -⟩ | ⟨-, hc⟩) | h' | hu)
    · exact absurd h' (by decide)
    · exact absurd h' (by decide)
    · exact absurd h' (by decide)
    · exact absurd h' (by decide)
    · cases hc
    · exact absurd h' (by decide)
    · obtain ⟨p, hp, hpk⟩ := List.mem_map.mp hu
      exact absurd hpk (huser p hp).2.1
  · rintro ((h' | h' | ⟨h', -⟩ | ⟨h', -⟩ | ⟨h', -⟩) | h' | hu)
    · exact absurd h' (by decide)
    · exact absurd h' (by decide)
    · exact absurd h' (by decide)
    · exact absurd h' (by decide)
    · exact absurd h' (by decide)
    · exact absurd h' (by decide)
    · obtain ⟨p, hp, hpk⟩ := List.mem_map.mp hu
      exact absurd hpk (huser p hp).2.2

/-- C7 witness: a concrete event with no span in scope has none of the
span or trace keys. -/
theorem c7_no_span_no_trace_witness :
    "span" ∉ ((EventFormatter.format_event ⟨true⟩ noSpanContext svcEvent
        (Except.ok "T")).1.map Prod.fst)
    ∧ "traceId" ∉ ((EventFormatter.format_event ⟨true⟩ noSpanContext svcEvent
        (Except.ok "T")).1.map Prod.fst)
    ∧ "logging.googleapis.com/spanId"
        ∉ ((EventFormatter.format_event ⟨true⟩ noSpanContext svcEvent
            (Except.ok "T")).1.map Prod.fst) :=
  c7_no_span_no_trace ⟨true⟩ noSpanContext svcEvent "T" _ rfl rfl rfl rfl
    (by decide)

/-- C10 counterexample: an event whose only span carries `trace_id`
recorded as the number 123 — not as a string — still gets a trace-id key.
The scan records the span's formatted-fields extension text
`{"trace_id":123}`, which is a String and therefore dispatches to
`record_str` regardless of the field's original type, and the unquoting
slice turns it into the trace id `2`. -/
theorem c10_stringified_counterexample :
    (EventFormatter.format_event ⟨false⟩ numContext svcEvent
        (Except.ok "T")).1
      = [("time", Json.str "T"), ("target", Json.str "svc"),
         ("span", Json.obj [("name", Json.str "request")]),
         ("traceId", Json.str "2"),
         ("severity", Json.str "ERROR")]
    ∧ "traceId" ∈ ((EventFormatter.format_event ⟨false⟩ numContext svcEvent
        (Except.ok "T")).1.map Prod.fst) :=
  ⟨rfl, by decide⟩

/-- C10 (amended): `TraceIdVisitor` itself captures only through
`record_str` (`record_debug` leaves the state unchanged), but at the one
call site of the scan the recorded object is the span's
`FormattedFields<JsonFields>` formatted String, which always reaches
`record_str` whatever the original type of the `trace_id` field; so
whenever `record_str` on that formatted text stores a trace id, the
`traceId` key is emitted — also for spans whose `trace_id` was recorded in
non-string form. -/
theorem c10_stringified_amended (f : EventFormatter) (context : Context)
    (event : EventData) (time : String) (entries : List (String × Json))
    (s : SpanData) (js tid : String)
    (hhier : context.hierarchy = [s]) (hnames : s.fieldNames = ["trace_id"])
    (hjf : s.jsonFields = some js)
    (hrec : TraceIdVisitor.new.record_str "trace_id" js = some ⟨some tid⟩)
    (h : f.format_event context event (Except.ok time) = (entries, Outcome.ok)) :
    (∀ w : TraceIdVisitor, w.record_debug = w)
    ∧ ("traceId", Json.str tid) ∈ entries := by
  refine ⟨fun _ => rfl, ?_⟩
  have h1 : recordSpanFields s s.fieldNames TraceIdVisitor.new
      = some ⟨some tid⟩ := by
    rw [hnames]
    simp [recordSpanFields, hjf, hrec]
  have hscan : scanTraceId context.hierarchy TraceIdVisitor.new
      = some ⟨some tid⟩ := by
    rw [hhier]
    simp [scanTraceId, h1]
  obtain ⟨visitor', hscan', hentries⟩ :=
    format_event_ok_entries f context event time entries h
  rw [hscan] at hscan'
  cases hscan'
  rw [hentries]
  simp [traceEntries, List.mem_append]

/-- C10 witness: the numeric-`trace_id` span concretely yields the
`traceId` entry `2`, extracted from its formatted-fields text. -/
theorem c10_stringified_amended_witness :
    ("traceId", Json.str "2")
        ∈ (EventFormatter.format_event ⟨false⟩ numContext svcEvent
            (Except.ok "T")).1 :=
  (c10_stringified_amended ⟨false⟩ numContext svcEvent "T" _ numSpan
    "\x7b\"trace_id\":123\x7d" "2" rfl rfl rfl (by decide) rfl).2

end Stackdriver

namespace Stackdriver

/-- C2 counterexample: at a concrete event with a resolved trace id `t1`,
the formatter writes the raw id under the key `traceId`; no
`logging.googleapis.com/trace` reference of the form
`projects/{project_id}/traces/{trace_id}` and no sampled boolean appear
anywhere in the record (the formatter holds no project identifier at all,
and the provider-reference emission in the source is commented out). -/
theorem c2_trace_emission_counterexample :
    (EventFormatter.format_event ⟨false⟩ traceContext svcEvent
        (Except.ok "T")).1
      = [("time", Json.str "T"), ("target", Json.str "svc"),
         ("span", Json.obj [("name", Json.str "request"),
                            ("user", Json.num 42)]),
         ("traceId", Json.str "t1"),
         ("severity", Json.str "ERROR")]
    ∧ "logging.googleapis.com/trace"
        ∉ ((EventFormatter.format_event ⟨false⟩ traceContext svcEvent
            (Except.ok "T")).1.map Prod.fst)
    ∧ "logging.googleapis.com/trace_sampled"
        ∉ ((EventFormatter.format_event ⟨false⟩ traceContext svcEvent
            (Except.ok "T")).1.map Prod.fst) :=
  ⟨rfl, by decide, by decide⟩

/-- C2 (amended): when the trace-id scan resolves a trace id, the formatter
writes it verbatim as a string under the key `traceId`; it never emits a
`logging.googleapis.com/trace` reference or a sampled boolean (it has no
project-identifier configuration); and when no trace id is resolved, no
trace key is emitted — all under the assumption that no user field reuses
those reserved names. -/
theorem c2_trace_emission_amended (f : EventFormatter) (context : Context)
    (event : EventData) (time : String) (entries : List (String × Json))
    (visitor : TraceIdVisitor)
    (h : f.format_event context event (Except.ok time) = (entries, Outcome.ok))
    (hscan : scanTraceId context.hierarchy TraceIdVisitor.new = some visitor)
    (huser : ∀ p ∈ event.fields, p.1 ≠ "traceId"
      ∧ p.1 ≠ "logging.googleapis.com/trace"
      ∧ p.1 ≠ "logging.googleapis.com/trace_sampled") :
    (visitor.trace_id.elim ("traceId" ∉ entries.map Prod.fst)
      (fun tid => ("traceId", Json.str tid) ∈ entries))
    ∧ "logging.googleapis.com/trace" ∉ entries.map Prod.fst
    ∧ "logging.googleapis.com/trace_sampled" ∉ entries.map Prod.fst := by
  obtain ⟨visitor', hscan', hentries⟩ :=
    format_event_ok_entries f context event time entries h
  rw [hscan] at hscan'
  cases hscan'
  refine ⟨?_, ?_, ?_⟩
  · cases ht : visitor.trace_id with
    | some tid =>
      rw [hentries]
      simp [traceEntries, ht, List.mem_append]
    | none =>
      rw [format_event_mem_key f context event time entries visitor h hscan,
        mem_fixedRecordKeys]
      rintro ((h' | h' | ⟨h', -⟩ | ⟨h', -⟩ | ⟨-, hc⟩) | h' | hu)
      · exact absurd h' (by decide)
      · exact absurd h' (by decide)
      · exact absurd h' (by decide)
      · exact absurd h' (by decide)
      · rw [ht] at hc; cases hc
      · exact absurd h' (by decide)
      · obtain ⟨p, hp, hpk⟩ := List.mem_map.mp hu
        exact absurd hpk (huser p hp).1
  · rw [format_event_mem_key f context event time entries visitor h hscan,
      mem_fixedRecordKeys]
    rintro ((h' | h' | ⟨h', -⟩ | ⟨h', -⟩ | ⟨h', -⟩) | h' | hu)
    · exact absurd h' (by decide)
    · exact absurd h' (by decide)
    · exact absurd h' (by decide)
    · exact absurd h' (by decide)
    · exact absurd h' (by decide)
    · exact absurd h' (by decide)
    · obtain ⟨p, hp, hpk⟩ := List.mem_map.mp hu
      exact absurd hpk (huser p hp).2.1
  · rw [format_event_mem_key f context event time entries visitor h hscan,
      mem_fixedRecordKeys]
    rintro ((h' | h' | ⟨h', -⟩ | ⟨h', -⟩ | ⟨h', -⟩) | h' | hu)
    · exact absurd h' (by decide)
    · exact absurd h' (by decide)
    · exact absurd h' (by decide)
    · exact absurd h' (by decide)
    · exact absurd h' (by decide)
    · exact absurd h' (by decide)
    · obtain ⟨p, hp, hpk⟩ := List.mem_map.mp hu
      exact absurd hpk (huser p hp).2.2

/-- C2 witness: with a resolved trace id `t1`, the record carries the raw
`traceId` entry and none of the provider trace keys. -/
theorem c2_trace_emission_amended_witness :
    ("traceId", Json.str "t1")
        ∈ (EventFormatter.format_event ⟨false⟩ traceContext svcEvent
            (Except.ok "T")).1
    ∧ "logging.googleapis.com/trace"
        ∉ ((EventFormatter.format_event ⟨false⟩ traceContext svcEvent
            (Except.ok "T")).1.map Prod.fst)
    ∧ "logging.googleapis.com/trace_sampled"
        ∉ ((EventFormatter.format_event ⟨false⟩ traceContext svcEvent
            (Except.ok "T")).1.map Prod.fst) :=
  c2_trace_emission_amended ⟨false⟩ traceContext svcEvent "T" _ ⟨some "t1"⟩
    rfl rfl (by decide)

/-- C4 counterexample: an event that records a user field named `time`
produces a record in which the key `time` is written twice, so the keys of
the emitted object are not written exactly once each. -/
theorem c4_duplicate_key_counterexample :
    (((EventFormatter.format_event ⟨false⟩ noSpanContext collidingEvent
        (Except.ok "T")).1.map Prod.fst).count "time") = 2 := by
  decide

/-- C4 (amended): for every successfully formatted event, the emitted keys
are the fixed keys — time, target, then the conditional sourceLocation,
span and traceId keys, in that deterministic order, each at most once and
pairwise distinct — followed by the visitor's entries (severity, then the
user fields in recording order); user fields that reuse a fixed name are
written again as-is, and the returned entry list is the completed record,
to which nothing is appended after the map closes. -/
theorem c4_fixed_order_amended (f : EventFormatter) (context : Context)
    (event : EventData) (time : String) (entries : List (String × Json))
    (visitor : TraceIdVisitor)
    (h : f.format_event context event (Except.ok time) = (entries, Outcome.ok))
    (hscan : scanTraceId context.hierarchy TraceIdVisitor.new = some visitor) :
    entries.map Prod.fst =
      fixedRecordKeys f context event visitor
        ++ "severity" :: event.fields.map Prod.fst
    ∧ (fixedRecordKeys f context event visitor).Nodup := by
  refine ⟨format_event_ok_keys f context event time entries visitor h hscan, ?_⟩
  unfold fixedRecordKeys
  split_ifs <;> decide

/-- C4 witness: the concrete colliding event still has its fixed keys in
order and pairwise distinct, ahead of the duplicated user key. -/
theorem c4_fixed_order_amended_witness :
    (EventFormatter.format_event ⟨false⟩ noSpanContext collidingEvent
        (Except.ok "T")).1.map Prod.fst =
      fixedRecordKeys ⟨false⟩ noSpanContext collidingEvent TraceIdVisitor.new
        ++ "severity" :: collidingEvent.fields.map Prod.fst
    ∧ (fixedRecordKeys ⟨false⟩ noSpanContext collidingEvent
        TraceIdVisitor.new).Nodup :=
  c4_fixed_order_amended ⟨false⟩ noSpanContext collidingEvent "T" _
    TraceIdVisitor.new rfl rfl

end Stackdriver
